import Mathlib

/-!
Verification development for the sethub-mvp backend glue code:
`src/backend/app/core/config.py` and `src/backend/app/database/session.py`.

The Python code is shallowly embedded: filesystem paths become lists of
components, parameter dictionaries become typed records of optional fields
or association lists, exceptions become `Except PyErr`, and side-effecting
library calls (engine construction, session method calls) are recorded in
explicit effect traces so that statements such as "no engine is created
before the failure" and "exit never invokes commit" can be expressed.
-/

namespace SetHub

/-- A Python exception, restricted to the kinds this code can raise:
`AttributeError` (carrying the missing attribute name) and `TypeError`
(carrying a message), as raised by attribute lookup and by
`sqlalchemy.URL.create` on a missing required argument. -/
inductive PyErr where
  | attributeError (attr : String)
  | typeError (msg : String)
deriving DecidableEq, Repr

/-! ## config.py: the Settings holder -/

/-- A `pathlib.Path`, modelled as its list of components. -/
abbrev PyPath := List String

/-- `Path.parent`: drop the last component. -/
def PyPath.parent (p : PyPath) : PyPath := p.dropLast

/-- The `/` join operator of `pathlib.Path` for relative right operands:
concatenation of components. -/
def PyPath.join (p q : PyPath) : PyPath := p ++ q

/-- The `Settings` pydantic model of `config.py`: a record of one name and
eight path fields, fixed at construction.  (Lean structures are immutable,
matching that the program never assigns to any field after construction.) -/
structure Settings where
  PROJECT_NAME : String
  MAIN_PATH : PyPath
  APP_PATH : PyPath
  MEDIA_FOLDER : PyPath
  MEDIA_PATH : PyPath
  STATIC_FOLDER_NAME : PyPath
  STATIC_FOLDER : PyPath
  TEMPLATES_FOLDER_NAME : PyPath
  TEMPLATES_FOLDER : PyPath
deriving DecidableEq, Repr

/-- Construction of `Settings` as written in `config.py`, parametrised by
the resolved location of `config.py` itself (Python `__file__`):
`MAIN_PATH = Path(__file__).resolve().parent.parent.parent.parent`, and the
other paths are joins below it. -/
def Settings.fromFile (file : PyPath) : Settings :=
  let MAIN_PATH := PyPath.parent (PyPath.parent (PyPath.parent (PyPath.parent file)))
  let MEDIA_FOLDER : PyPath := ["media"]
  let STATIC_FOLDER_NAME : PyPath := ["frontend", "static"]
  let TEMPLATES_FOLDER_NAME : PyPath := ["frontend", "templates"]
  { PROJECT_NAME := "Sethub"
    MAIN_PATH := MAIN_PATH
    APP_PATH := PyPath.join MAIN_PATH ["app"]
    MEDIA_FOLDER := MEDIA_FOLDER
    MEDIA_PATH := PyPath.join MAIN_PATH MEDIA_FOLDER
    STATIC_FOLDER_NAME := STATIC_FOLDER_NAME
    STATIC_FOLDER := PyPath.join MAIN_PATH STATIC_FOLDER_NAME
    TEMPLATES_FOLDER_NAME := TEMPLATES_FOLDER_NAME
    TEMPLATES_FOLDER := PyPath.join MAIN_PATH TEMPLATES_FOLDER_NAME }

/-- A value held by a `Settings` attribute: a string or a path. -/
inductive SettingsAttr where
  | str (v : String)
  | path (v : PyPath)
deriving DecidableEq, Repr

/-- Python attribute lookup on a `Settings` instance: exactly the fields
declared in the class body resolve; any other name is an `AttributeError`
(returned as `none` here). -/
def Settings.getattr (s : Settings) : String → Option SettingsAttr
  | "PROJECT_NAME" => some (.str s.PROJECT_NAME)
  | "MAIN_PATH" => some (.path s.MAIN_PATH)
  | "APP_PATH" => some (.path s.APP_PATH)
  | "MEDIA_FOLDER" => some (.path s.MEDIA_FOLDER)
  | "MEDIA_PATH" => some (.path s.MEDIA_PATH)
  | "STATIC_FOLDER_NAME" => some (.path s.STATIC_FOLDER_NAME)
  | "STATIC_FOLDER" => some (.path s.STATIC_FOLDER)
  | "TEMPLATES_FOLDER_NAME" => some (.path s.TEMPLATES_FOLDER_NAME)
  | "TEMPLATES_FOLDER" => some (.path s.TEMPLATES_FOLDER)
  | _ => none

/-! ## session.py: parameter mappings and the SQLAlchemy URL -/

/-- A primitive Python value appearing in the parameter mappings. -/
inductive PyPrim where
  | pstr (v : String)
  | pbool (v : Bool)
  | pint (v : Int)
deriving DecidableEq, Repr

/-- The keyword arguments accepted by `sqlalchemy.URL.create`, as a record
of optional fields: a missing dictionary key is `none`.  `drivername` is
the only parameter of `URL.create` without a default. -/
structure UrlParams where
  drivername : Option String := none
  username : Option String := none
  password : Option String := none
  host : Option String := none
  port : Option Nat := none
  database : Option String := none
deriving DecidableEq, Repr

/-- A constructed `sqlalchemy.URL` value: its components. -/
structure URL where
  drivername : String
  username : Option String
  password : Option String
  host : Option String
  port : Option Nat
  database : Option String
deriving DecidableEq, Repr

/-- `sqlalchemy.URL.create(**params)`: fails with a `TypeError` when the
required `drivername` argument is absent, otherwise assembles the URL from
the given components unchanged. -/
def URL.create (p : UrlParams) : Except PyErr URL :=
  match p.drivername with
  | none => .error (.typeError "missing required argument: drivername")
  | some d => .ok ⟨d, p.username, p.password, p.host, p.port, p.database⟩

/-- `engine_params`: the `Dict[str, bool]` passed to `create_async_engine`. -/
abbrev EngineParams := List (String × Bool)

/-- `sessionmaker_params`: the `Dict[str, Any]` passed to `async_sessionmaker`. -/
abbrev SmParams := List (String × PyPrim)

/-- A SQLAlchemy `AsyncEngine`: identified by the URL and engine
parameters it was built from (engine construction is pure configuration;
no connection is opened at build time). -/
structure AsyncEngine where
  url : URL
  params : EngineParams
deriving DecidableEq, Repr

/-- `sqlalchemy.ext.asyncio.create_async_engine(url, **engine_params)`. -/
def create_async_engine (url : URL) (engine_params : EngineParams) : AsyncEngine :=
  ⟨url, engine_params⟩

/-- The result of `async_sessionmaker(...)`: a session factory bound to an
engine, itself a callable and not a session. -/
structure AsyncSessionFactory where
  bind : AsyncEngine
  params : SmParams
deriving DecidableEq, Repr

/-- `async_sessionmaker(**sessionmaker_params, class_=AsyncSession, bind=engine)`. -/
def async_sessionmaker (sessionmaker_params : SmParams) (bind : AsyncEngine) :
    AsyncSessionFactory :=
  ⟨bind, sessionmaker_params⟩

/-- An `AsyncSession` object produced by calling a session factory; bound
to the factory engine. -/
structure AsyncSession where
  bind : AsyncEngine
  params : SmParams
deriving DecidableEq, Repr

/-- Calling the session factory (`self.session_factory()`) produces a new
session bound to the factory engine. -/
def AsyncSessionFactory.call (f : AsyncSessionFactory) : AsyncSession :=
  ⟨f.bind, f.params⟩

/-! ## session.py: the DatabaseSession wrapper -/

/-- The state of a `DatabaseSession` instance after a successful
`__init__`: the three parameter mappings copied from the settings object. -/
structure DatabaseSession where
  url_params : UrlParams
  engine_params : EngineParams
  sessionmaker_params : SmParams
deriving DecidableEq, Repr

/-- The `db` sub-object of a caller-supplied settings object, exposing
`params`. -/
structure DbSettings where
  params : UrlParams
deriving DecidableEq, Repr

/-- The `engine` sub-object of a caller-supplied settings object. -/
structure EngineSettings where
  params : EngineParams
deriving DecidableEq, Repr

/-- The `session` sub-object of a caller-supplied settings object. -/
structure SessionSettings where
  params : SmParams
deriving DecidableEq, Repr

/-- A settings object exposing `db.params`, `engine.params` and
`session.params`, as `DatabaseSession.__init__` requires. -/
structure FullSettings where
  db : DbSettings
  engine : EngineSettings
  session : SessionSettings
deriving DecidableEq, Repr

/-- The duck-typed `settings: Any` argument of `DatabaseSession.__init__`:
either the module-level `Settings` instance imported from `config.py`
(the default argument) or a caller-supplied object with the database
sub-objects. -/
inductive SettingsObj where
  | config (s : Settings)
  | full (f : FullSettings)
deriving DecidableEq, Repr

/-- Evaluation of `settings.db`: on the config `Settings` instance this is
an attribute lookup in the class field table, which contains no `db`, so it
raises `AttributeError`; were the attribute present it would hold a string
or path, on which the subsequent `.params` lookup would itself raise. -/
def SettingsObj.getDb : SettingsObj → Except PyErr DbSettings
  | .config s =>
      match Settings.getattr s "db" with
      | some _ => .error (.attributeError "params")
      | none => .error (.attributeError "db")
  | .full f => .ok f.db

/-- Evaluation of `settings.engine`, as for `settings.db`. -/
def SettingsObj.getEngine : SettingsObj → Except PyErr EngineSettings
  | .config s =>
      match Settings.getattr s "engine" with
      | some _ => .error (.attributeError "params")
      | none => .error (.attributeError "engine")
  | .full f => .ok f.engine

/-- Evaluation of `settings.session`, as for `settings.db`. -/
def SettingsObj.getSession : SettingsObj → Except PyErr SessionSettings
  | .config s =>
      match Settings.getattr s "session" with
      | some _ => .error (.attributeError "params")
      | none => .error (.attributeError "session")
  | .full f => .ok f.session

/-- `DatabaseSession.__init__(self, settings=settings)`: reads
`settings.db.params`, `settings.engine.params`, `settings.session.params`
in order, storing them on the instance; the first failing attribute lookup
raises. -/
def DatabaseSession.init (settings : SettingsObj) : Except PyErr DatabaseSession := do
  let db ← settings.getDb
  let url_params := db.params
  let engine ← settings.getEngine
  let engine_params := engine.params
  let session ← settings.getSession
  let sessionmaker_params := session.params
  return ⟨url_params, engine_params, sessionmaker_params⟩

/-- The module-level default argument: the `settings` singleton of
`config.py`, parametrised by the resolved location of `config.py`. -/
def moduleSettings (file : PyPath) : SettingsObj :=
  .config (Settings.fromFile file)

/-- One observable step performed while building the session factory.
`networkConnect` stands for any network interaction with the database; it
is listed so that its absence from every trace is a provable statement. -/
inductive BuildStep where
  | createUrlCall (p : UrlParams)
  | createEngineCall (url : URL) (p : EngineParams)
  | sessionmakerCall (p : SmParams) (bind : AsyncEngine)
  | networkConnect
deriving DecidableEq, Repr

/-- `DatabaseSession.__create_url(self, url_params)`: delegates to
`URL.create(**url_params)`. -/
def DatabaseSession.create_url (_self : DatabaseSession) (url_params : UrlParams) :
    Except PyErr URL :=
  URL.create url_params

/-- `DatabaseSession.__precreate_async_session(self)`: create the URL from
`self.url_params`, then the async engine from the URL and
`self.engine_params`, then the session factory bound to that engine with
`self.sessionmaker_params`; the result is paired with the trace of build
steps actually performed (a failing `URL.create` ends the trace there). -/
def DatabaseSession.precreate_async_session (self : DatabaseSession) :
    Except PyErr AsyncSessionFactory × List BuildStep :=
  match self.create_url self.url_params with
  | .error e => (.error e, [.createUrlCall self.url_params])
  | .ok url =>
      let async_engine := create_async_engine url self.engine_params
      let session := async_sessionmaker self.sessionmaker_params async_engine
      (.ok session,
        [.createUrlCall self.url_params,
         .createEngineCall url self.engine_params,
         .sessionmakerCall self.sessionmaker_params async_engine])

deriving instance DecidableEq for Except

/-- A Python generator that performs some steps, yields one value (or
raises on the first `next`), and performs some further steps when resumed
past the yield. -/
structure Gen (α : Type) where
  preYield : List BuildStep
  firstNext : Except PyErr α
  postYield : List BuildStep
deriving DecidableEq, Repr

/-- `DatabaseSession.create_async_session(self)`: the generator whose body
is `session = self.__precreate_async_session(); yield session` — the
commit/rollback/close block after the yield is commented out in the
source, so nothing runs past the yield. -/
def DatabaseSession.create_async_session (self : DatabaseSession) :
    Gen AsyncSessionFactory :=
  { preYield := self.precreate_async_session.2
    firstNext := self.precreate_async_session.1
    postYield := [] }

/-- The object returned by a `@contextmanager`-decorated callable: it holds
the generator obtained by invoking the undecorated function. -/
structure GeneratorContextManager (α : Type) where
  gen : Gen α
deriving DecidableEq, Repr

/-- `DatabaseSession.open_async_session(self)` under `@contextmanager`:
the undecorated body is `return self.create_async_session()`, so the
wrapped generator is exactly the generator from `create_async_session`. -/
def DatabaseSession.open_async_session (self : DatabaseSession) :
    GeneratorContextManager AsyncSessionFactory :=
  { gen := self.create_async_session }

/-- `__enter__` of the generator context manager: run the generator to its
first yield, returning the steps performed and the yielded value. -/
def GeneratorContextManager.enter {α : Type} (cm : GeneratorContextManager α) :
    List BuildStep × Except PyErr α :=
  (cm.gen.preYield, cm.gen.firstNext)

/-- `__exit__` of the generator context manager: resume the generator past
the yield; the steps it performs there are the release/cleanup behaviour. -/
def GeneratorContextManager.exit {α : Type} (cm : GeneratorContextManager α) :
    List BuildStep :=
  cm.gen.postYield

/-! ## session.py: the SessionContextManager -/

/-- A method invoked on an `AsyncSession` object. -/
inductive SessionOp where
  | commit
  | rollback
  | close
deriving DecidableEq, Repr

/-- One awaited method call `target.op()` on a session object, recorded in
the trace of a context-manager operation. -/
structure SessionCall where
  target : AsyncSession
  op : SessionOp
deriving DecidableEq, Repr

/-- The state of a `SessionContextManager` instance: the stored factory and
the stored session reference (`None` when no session is attached). -/
structure SessionContextManager where
  session_factory : AsyncSessionFactory
  session : Option AsyncSession
deriving DecidableEq, Repr

/-- `SessionContextManager.__aenter__`: `self.session = self.session_factory()`. -/
def SessionContextManager.aenter (self : SessionContextManager) :
    SessionContextManager :=
  { self with session := some self.session_factory.call }

/-- `SessionContextManager.commit`: `await self.session.commit()`, then
`await self.session.close()`, then `self.session = None`.  When no session
is attached, `self.session` is `None` and the very first attribute access
`self.session.commit` raises `AttributeError` before any session call. -/
def SessionContextManager.commit (self : SessionContextManager) :
    Except PyErr SessionContextManager × List SessionCall :=
  match self.session with
  | none => (.error (.attributeError "commit"), [])
  | some s => (.ok { self with session := none }, [⟨s, .commit⟩, ⟨s, .close⟩])

/-- `SessionContextManager.rollback`: `await self.session.rollback()`, then
`await self.session.close()`, then `self.session = None`; `AttributeError`
with no session call when no session is attached. -/
def SessionContextManager.rollback (self : SessionContextManager) :
    Except PyErr SessionContextManager × List SessionCall :=
  match self.session with
  | none => (.error (.attributeError "rollback"), [])
  | some s => (.ok { self with session := none }, [⟨s, .rollback⟩, ⟨s, .close⟩])

/-- `SessionContextManager.__aexit__(self, *args)`: `await self.rollback()`
unconditionally; the exception information in `*args` (present when the
body raised, absent when it completed normally) is ignored. -/
def SessionContextManager.aexit (self : SessionContextManager)
    (_exc : Option PyErr) : Except PyErr SessionContextManager × List SessionCall :=
  self.rollback

/-- Whether a name begins with two underscores. -/
def startsWithUU (na : String) : Bool :=
  match na.data with
  | '_' :: '_' :: _ => true
  | _ => false

/-- Whether a name ends with two underscores. -/
def endsWithUU (na : String) : Bool :=
  match na.data.reverse with
  | '_' :: '_' :: _ => true
  | _ => false

/-- Python private-name mangling: inside the body of class `cls`, an
identifier starting with two underscores and not ending with two
underscores is rewritten to the class-qualified name. -/
def mangle (cls na : String) : String :=
  if startsWithUU na && !(endsWithUU na) then "_" ++ cls ++ na else na

/-- The attribute names a class body defines, after mangling. -/
def classAttrs (cls : String) (names : List String) : List String :=
  names.map (mangle cls)

/-- The attribute table of class `DatabaseSession`: the methods defined in
its body, with private names mangled. -/
def databaseSessionClassAttrs : List String :=
  classAttrs "DatabaseSession"
    ["__init__", "__create_url", "__create_async_engine",
     "__create_async_session_factory", "__precreate_async_session",
     "create_async_session", "open_async_session"]

/-- The attribute table of class `SessionContextManager` itself. -/
def sessionContextManagerClassAttrs : List String :=
  classAttrs "SessionContextManager"
    ["__init__", "__aenter__", "__aexit__", "commit", "rollback"]

/-- Method resolution order for attribute lookup on a
`SessionContextManager` instance: its own class table, then the
`DatabaseSession` table it inherits. -/
def scmMroAttrs : List String :=
  sessionContextManagerClassAttrs ++ databaseSessionClassAttrs

/-- The attribute name that `self.__precreate_async_session` denotes inside
the body of `SessionContextManager.__init__`, after mangling. -/
def scmLookupName : String :=
  mangle "SessionContextManager" "__precreate_async_session"

/-- Attribute lookup along the method resolution order. -/
def mroLookup (na : String) : Option String :=
  if na ∈ scmMroAttrs then some na else none

/-- `SessionContextManager.__init__`: its first statement evaluates
`self.__precreate_async_session`, an attribute lookup of the mangled name.
When the lookup fails nothing is stored and the constructor raises
`AttributeError`.  Were the name present, the inherited method would run on
an instance whose `url_params` was never set (`super().__init__` is never
called), so that branch raises `AttributeError` on `url_params`. -/
def SessionContextManager.init : Except PyErr SessionContextManager :=
  match mroLookup scmLookupName with
  | none => .error (.attributeError scmLookupName)
  | some _ => .error (.attributeError "url_params")

/-! ## Concrete sample values used by the witness statements -/

/-- A concrete, fully populated URL parameter mapping. -/
def sampleParams : UrlParams :=
  { drivername := some "postgresql+asyncpg"
    username := some "admin"
    password := some "secret"
    host := some "localhost"
    port := some 5432
    database := some "sethub" }

/-- A concrete `DatabaseSession` state built from `sampleParams`. -/
def sampleDS : DatabaseSession :=
  ⟨sampleParams, [("echo", true)], [("expire_on_commit", .pbool false)]⟩

/-- A concrete URL parameter mapping with no `drivername` key. -/
def sampleNoDriver : UrlParams :=
  { host := some "localhost", database := some "sethub" }

/-- A concrete `DatabaseSession` state whose URL parameters lack the
required `drivername`. -/
def sampleNoDriverDS : DatabaseSession :=
  ⟨sampleNoDriver, [("echo", true)], [("expire_on_commit", .pbool false)]⟩

/-- The concrete session factory built by `sampleDS`. -/
def sampleFactory : AsyncSessionFactory :=
  async_sessionmaker sampleDS.sessionmaker_params
    (create_async_engine
      ⟨"postgresql+asyncpg", some "admin", some "secret", some "localhost",
       some 5432, some "sethub"⟩
      sampleDS.engine_params)

/-- The concrete session produced by calling `sampleFactory`. -/
def sampleSession : AsyncSession := sampleFactory.call

/-- A concrete `SessionContextManager` state with `sampleSession` attached. -/
def sampleSCM : SessionContextManager := ⟨sampleFactory, some sampleSession⟩

/-! ## Claim theorems -/

/-- Claim C1: for every enter/exit cycle of `SessionContextManager`,
exiting the context — whether the body completed normally or raised, the
exception information being ignored — invokes rollback followed by close on
the attached session, never invokes commit, and clears the stored
reference, so any work not explicitly committed before exit is discarded. -/
theorem scm_aexit_always_rolls_back (st : SessionContextManager)
    (s : AsyncSession) (exc : Option PyErr) (h : st.session = some s) :
    st.aexit exc =
      (.ok { st with session := none }, [⟨s, .rollback⟩, ⟨s, .close⟩]) ∧
    ∀ t ∈ (st.aexit exc).2, t.op ≠ SessionOp.commit := by
  unfold SessionContextManager.aexit SessionContextManager.rollback
  rw [h]
  refine ⟨rfl, ?_⟩
  intro t ht
  simp only [List.mem_cons, List.not_mem_nil, or_false] at ht
  rcases ht with rfl | rfl <;> simp

/-- Witness for C1 at a concrete state with a session attached. -/
theorem scm_aexit_always_rolls_back_witness :
    sampleSCM.session = some sampleSession ∧
    (sampleSCM.aexit none =
        (.ok { sampleSCM with session := none },
         [⟨sampleSession, .rollback⟩, ⟨sampleSession, .close⟩]) ∧
     ∀ t ∈ (sampleSCM.aexit none).2, t.op ≠ SessionOp.commit) :=
  ⟨rfl, scm_aexit_always_rolls_back sampleSCM sampleSession none rfl⟩

/-- Claim C2: with a session attached, `commit()` commits then closes the
session and sets the stored reference to `None`, and `rollback()` rolls
back then closes the session and sets the stored reference to `None`: the
wrapper is single-use per enter/exit cycle. -/
theorem scm_commit_rollback_close_and_clear (st : SessionContextManager)
    (s : AsyncSession) (h : st.session = some s) :
    st.commit =
      (.ok { st with session := none }, [⟨s, .commit⟩, ⟨s, .close⟩]) ∧
    st.rollback =
      (.ok { st with session := none }, [⟨s, .rollback⟩, ⟨s, .close⟩]) := by
  unfold SessionContextManager.commit SessionContextManager.rollback
  rw [h]
  exact ⟨rfl, rfl⟩

/-- Witness for C2 at a concrete state with a session attached. -/
theorem scm_commit_rollback_close_and_clear_witness :
    sampleSCM.session = some sampleSession ∧
    (sampleSCM.commit =
        (.ok { sampleSCM with session := none },
         [⟨sampleSession, .commit⟩, ⟨sampleSession, .close⟩]) ∧
     sampleSCM.rollback =
        (.ok { sampleSCM with session := none },
         [⟨sampleSession, .rollback⟩, ⟨sampleSession, .close⟩])) :=
  ⟨rfl, scm_commit_rollback_close_and_clear sampleSCM sampleSession rfl⟩

/-- Claim C3: after `commit()` succeeds the stored reference is `None`, and
a subsequent `rollback()` without re-entering the context fails with an
`AttributeError` while performing no session call at all: it does not roll
back any session. -/
theorem scm_rollback_after_commit_fails (st : SessionContextManager)
    (s : AsyncSession) (h : st.session = some s) :
    (st.commit).1 = .ok { st with session := none } ∧
    SessionContextManager.rollback { st with session := none } =
      (.error (.attributeError "rollback"), []) := by
  unfold SessionContextManager.commit SessionContextManager.rollback
  rw [h]
  exact ⟨rfl, rfl⟩

/-- Witness for C3 at a concrete state with a session attached. -/
theorem scm_rollback_after_commit_fails_witness :
    sampleSCM.session = some sampleSession ∧
    ((sampleSCM.commit).1 = .ok { sampleSCM with session := none } ∧
     SessionContextManager.rollback { sampleSCM with session := none } =
       (.error (.attributeError "rollback"), [])) :=
  ⟨rfl, scm_rollback_after_commit_fails sampleSCM sampleSession rfl⟩

/-- Claim C4: `create_async_session()` performs the three-step composition
— URL from `url_params`, engine from URL and `engine_params`, factory bound
to the engine with `sessionmaker_params` — and the value it yields is the
freshly constructed session factory itself (an `AsyncSessionFactory`, a
callable producing sessions), not a single session object. -/
theorem create_async_session_yields_factory (ds : DatabaseSession)
    (d : String) (h : ds.url_params.drivername = some d) :
    ds.create_async_session.firstNext =
      .ok (async_sessionmaker ds.sessionmaker_params
        (create_async_engine
          ⟨d, ds.url_params.username, ds.url_params.password,
           ds.url_params.host, ds.url_params.port, ds.url_params.database⟩
          ds.engine_params)) ∧
    ds.create_async_session.preYield =
      [.createUrlCall ds.url_params,
       .createEngineCall
         ⟨d, ds.url_params.username, ds.url_params.password,
          ds.url_params.host, ds.url_params.port, ds.url_params.database⟩
         ds.engine_params,
       .sessionmakerCall ds.sessionmaker_params
         (create_async_engine
           ⟨d, ds.url_params.username, ds.url_params.password,
            ds.url_params.host, ds.url_params.port, ds.url_params.database⟩
           ds.engine_params)] := by
  unfold DatabaseSession.create_async_session
    DatabaseSession.precreate_async_session DatabaseSession.create_url
    URL.create
  rw [h]
  exact ⟨rfl, rfl⟩

/-- Witness for C4 at the concrete `sampleDS`. -/
theorem create_async_session_yields_factory_witness :
    sampleDS.url_params.drivername = some "postgresql+asyncpg" ∧
    (sampleDS.create_async_session.firstNext = .ok sampleFactory ∧
     sampleDS.create_async_session.preYield =
       [.createUrlCall sampleParams,
        .createEngineCall sampleFactory.bind.url sampleDS.engine_params,
        .sessionmakerCall sampleDS.sessionmaker_params sampleFactory.bind]) :=
  ⟨rfl, create_async_session_yields_factory sampleDS "postgresql+asyncpg" rfl⟩

/-- Claim C5: `open_async_session()` wraps exactly the generator produced
by `create_async_session()`: entering it performs the same steps and yields
the same value, and its exit path performs no release or cleanup steps of
its own. -/
theorem open_async_session_is_pass_through (ds : DatabaseSession) :
    ds.open_async_session.gen = ds.create_async_session ∧
    ds.open_async_session.exit = [] ∧
    ds.open_async_session.enter =
      (ds.create_async_session.preYield, ds.create_async_session.firstNext) :=
  ⟨rfl, rfl, rfl⟩

/-- Claim C6: when the parameter mapping lacks the required `drivername`
key, `__create_url` fails with the `TypeError` raised by `URL.create`, the
whole precreate step returns that error, and the trace up to the failure
contains no engine construction and no network interaction. -/
theorem create_url_missing_driver_fails (ds : DatabaseSession)
    (h : ds.url_params.drivername = none) :
    ds.create_url ds.url_params =
      .error (.typeError "missing required argument: drivername") ∧
    ds.precreate_async_session =
      (.error (.typeError "missing required argument: drivername"),
       [.createUrlCall ds.url_params]) ∧
    ∀ st ∈ ds.precreate_async_session.2,
      (∀ u p, st ≠ BuildStep.createEngineCall u p) ∧
      st ≠ BuildStep.networkConnect := by
  unfold DatabaseSession.precreate_async_session DatabaseSession.create_url
    URL.create
  rw [h]
  refine ⟨rfl, rfl, ?_⟩
  intro st hst
  simp only [List.mem_cons, List.not_mem_nil, or_false] at hst
  subst hst
  exact ⟨fun u p => by simp, by simp⟩

/-- Witness for C6 at the concrete `sampleNoDriverDS`. -/
theorem create_url_missing_driver_fails_witness :
    sampleNoDriverDS.url_params.drivername = none ∧
    (sampleNoDriverDS.create_url sampleNoDriverDS.url_params =
       .error (.typeError "missing required argument: drivername") ∧
     sampleNoDriverDS.precreate_async_session =
       (.error (.typeError "missing required argument: drivername"),
        [.createUrlCall sampleNoDriver]) ∧
     ∀ st ∈ sampleNoDriverDS.precreate_async_session.2,
       (∀ u p, st ≠ BuildStep.createEngineCall u p) ∧
       st ≠ BuildStep.networkConnect) :=
  ⟨rfl, create_url_missing_driver_fails sampleNoDriverDS rfl⟩

/-- Claim C7: for a valid parameter mapping (the required `drivername`
present), `__create_url` produces a URL whose components equal the
corresponding input fields exactly: nothing is added, dropped, renamed or
transformed by this layer. -/
theorem create_url_components_match (ds : DatabaseSession) (p : UrlParams)
    (d : String) (h : p.drivername = some d) :
    ds.create_url p =
      .ok { drivername := d, username := p.username, password := p.password,
            host := p.host, port := p.port, database := p.database } := by
  unfold DatabaseSession.create_url URL.create
  rw [h]

/-- Witness for C7 at the concrete `sampleParams`. -/
theorem create_url_components_match_witness :
    sampleParams.drivername = some "postgresql+asyncpg" ∧
    sampleDS.create_url sampleParams =
      .ok ⟨"postgresql+asyncpg", some "admin", some "secret",
           some "localhost", some 5432, some "sethub"⟩ :=
  ⟨rfl, create_url_components_match sampleDS sampleParams "postgresql+asyncpg" rfl⟩

/-- Claim C8: for every anchor location of `config.py`, the constructed
`Settings` satisfies `APP_PATH = MAIN_PATH/app`,
`MEDIA_PATH = MAIN_PATH/media`, `STATIC_FOLDER = MAIN_PATH/frontend/static`
and `TEMPLATES_FOLDER = MAIN_PATH/frontend/templates`, all resolved at
construction time; the embedding represents `Settings` as an immutable
record and no operation of the program produces a modified `Settings`. -/
theorem settings_paths_resolved_from_anchor (file : PyPath) :
    (Settings.fromFile file).APP_PATH =
      PyPath.join (Settings.fromFile file).MAIN_PATH ["app"] ∧
    (Settings.fromFile file).MEDIA_PATH =
      PyPath.join (Settings.fromFile file).MAIN_PATH ["media"] ∧
    (Settings.fromFile file).STATIC_FOLDER =
      PyPath.join (Settings.fromFile file).MAIN_PATH ["frontend", "static"] ∧
    (Settings.fromFile file).TEMPLATES_FOLDER =
      PyPath.join (Settings.fromFile file).MAIN_PATH ["frontend", "templates"] :=
  ⟨rfl, rfl, rfl, rfl⟩

/-- Claim C9: `SessionContextManager.__init__` looks up the mangled name
`_SessionContextManager__precreate_async_session`, which is absent from the
method resolution order (the parent defines only
`_DatabaseSession__precreate_async_session`), so construction always raises
`AttributeError` before any session factory is stored. -/
theorem scm_init_raises_attribute_error :
    SessionContextManager.init =
      .error (.attributeError "_SessionContextManager__precreate_async_session") ∧
    scmLookupName = "_SessionContextManager__precreate_async_session" ∧
    scmLookupName ∉ scmMroAttrs ∧
    mangle "DatabaseSession" "__precreate_async_session" =
      "_DatabaseSession__precreate_async_session" ∧
    mangle "DatabaseSession" "__precreate_async_session" ∈
      databaseSessionClassAttrs := by
  refine ⟨by decide, by decide, by decide, by decide, by decide⟩

/-- Claim C10: constructing `DatabaseSession` with the default argument —
the module-level `Settings` instance of `config.py`, which exposes only
name and path fields — always raises `AttributeError` on reading
`settings.db`, for every anchor location of `config.py`; construction
succeeds exactly for a caller-supplied settings object exposing
`db.params`, `engine.params` and `session.params`. -/
theorem database_session_init_default_settings (file : PyPath) :
    DatabaseSession.init (moduleSettings file) =
      .error (.attributeError "db") ∧
    ∀ f : FullSettings,
      DatabaseSession.init (.full f) =
        .ok ⟨f.db.params, f.engine.params, f.session.params⟩ := by
  exact ⟨rfl, fun f => rfl⟩

end SetHub
